import Mathlib

/-!
Shallow embedding of the Personal-Traffic-Alert bot (src/main.py) in Lean 4,
together with proofs about its window calculator, scheduler loop, traffic
classifier, delivery queue producer and onboarding handlers.

Conventions used throughout:
* clock values are measured in whole minutes (an `Int`); a calendar day is
  1440 minutes, and `d * 1440 + t` is minute `t` of day `d`;
* a Python `datetime` is a `PyDateTime`: its wall-clock reading plus an
  optional UTC offset (`none` models a naive datetime, `some o` an aware one,
  as produced by `pytz`-localization);
* fallible Python operations (comparing naive with aware datetimes raises
  `TypeError`) are embedded as `Except Unit`-valued functions.
-/

namespace TrafficAlert

/-! ### Configuration constants (src/main.py lines 16-17) -/

def TRAFFIC_DELAY_THRESHOLD_MINS : Int := 5

def MINOR_DELAY_THRESHOLD_MINS : Int := 2

/-! ### Traffic classifier (src/main.py lines 334-359)

The body of `send_tomtom_update` chooses one of three message bodies by
`delay_mins >= TRAFFIC_DELAY_THRESHOLD_MINS` / `delay_mins >=
MINOR_DELAY_THRESHOLD_MINS` / otherwise.  `classify` names the branch taken;
the thresholds are passed explicitly so the boundary behaviour can be stated
for arbitrary configurations. -/

inductive AlertTier
  | urgent
  | minor
  | clear
deriving DecidableEq

def classify (delay_mins urgent_t minor_t : Int) : AlertTier :=
  if delay_mins ≥ urgent_t then .urgent
  else if delay_mins ≥ minor_t then .minor
  else .clear

/-! ### TomTom response data (src/main.py lines 320-331)

`routes` is the `route_data.get("routes")` list; a missing or empty key is the
empty list (both are falsy in the source's truthiness test).
`trafficDelayInSeconds` is optional: `summary.get("trafficDelayInSeconds", 0)`
defaults it to zero. -/

structure RouteSummary where
  travelTimeInSeconds : Nat
  trafficDelayInSeconds : Option Nat
deriving DecidableEq

structure TomTomResponse where
  status_code : Nat
  routes : List RouteSummary
deriving DecidableEq

/-- Embeds `delay_mins = summary.get("trafficDelayInSeconds", 0) // 60`
(src/main.py lines 327-328). -/
def delay_mins_of (s : RouteSummary) : Int :=
  (((s.trafficDelayInSeconds.getD 0) / 60 : Nat) : Int)

/-- Embeds `travel_time_mins = summary["travelTimeInSeconds"] // 60`
(src/main.py line 326). -/
def travel_mins_of (s : RouteSummary) : Int :=
  ((s.travelTimeInSeconds / 60 : Nat) : Int)

/-! ### User profile dictionary (src/main.py lines 20, 72-157)

`user_data[chat_id]` is a string-keyed dict; each field is optional because
keys are added one at a time during onboarding.  Times are stored as
(hour, minute) pairs as parsed by `datetime.strptime(text, "%H:%M")`. -/

structure UserData where
  office_start_time : Option (Nat × Nat)
  home_start_time : Option (Nat × Nat)
  home_lat : Option Int
  home_lon : Option Int
  office_lat : Option Int
  office_lon : Option Int
deriving DecidableEq

/-! ### Queued messages (src/main.py lines 336-373)

The information content of each message body put on `message_queue`:
the success branch carries the branch tier plus the two numbers interpolated
into the text, the three failure branches carry the failure data. -/

inductive BotMessage
  | alert (tier : AlertTier) (travel_time_mins delay_mins : Int)
  | noRoute
  | apiFailure (status : Nat)
  | exceptionText (e : String)
deriving DecidableEq

def BotMessage.alertTier : BotMessage → Option AlertTier
  | .alert t _ _ => some t
  | _ => none

/-- The success-branch message of `send_tomtom_update` (src/main.py lines
333-359): tier selected by the thresholds, travel/delay minutes carried in
the text. -/
def compose_traffic_message (travel_time_mins delay_mins urgent_t minor_t : Int) :
    BotMessage :=
  .alert (classify delay_mins urgent_t minor_t) travel_time_mins delay_mins

/-- Embeds `send_tomtom_update` (src/main.py lines 287-373) as the list of
messages it appends to `message_queue`.  The external HTTP call and JSON
parse are an input: `Except.error e` is a raised exception (timeout, network
failure, malformed payload — the `except` clause at line 371), `Except.ok r`
a received response.  Missing user data returns without queueing (line 293).
The function is total: every exception path is caught by the source's
`try`/`except` and converted into a queued message. -/
def send_tomtom_update (chat_id : Int) (data : Option UserData)
    (result : Except String TomTomResponse) : List (Int × BotMessage) :=
  match data with
  | none => []
  | some _ =>
    match result with
    | .error e => [(chat_id, .exceptionText e)]
    | .ok response =>
      if response.status_code = 200 then
        match response.routes with
        | [] => [(chat_id, .noRoute)]
        | summary :: _ =>
          [(chat_id, compose_traffic_message (travel_mins_of summary)
              (delay_mins_of summary)
              TRAFFIC_DELAY_THRESHOLD_MINS MINOR_DELAY_THRESHOLD_MINS)]
      else [(chat_id, .apiFailure response.status_code)]

/-! ### Onboarding time parsing (src/main.py lines 77, 96)

`datetime.strptime(time_str, "%H:%M")` compiles `%H` to the regex
`2[0-3]|[0-1]\d|\d` and `%M` to `[0-5]\d|\d`, separated by a literal colon,
and requires the whole string to be consumed.  `strptime_HM` reproduces that
acceptance language for ASCII digit strings, returning the parsed
(hour, minute) on success and `none` where Python raises `ValueError`. -/

def digitVal (c : Char) : Option Nat :=
  if c.isDigit then some (c.toNat - 48) else none

/-- Two-digit hour alternative `2[0-3]|[0-1]\d` of `%H`. -/
def hour2 (a b : Char) : Option Nat :=
  if a = '2' ∧ '0' ≤ b ∧ b ≤ '3' then some (20 + (b.toNat - 48))
  else if (a = '0' ∨ a = '1') ∧ b.isDigit then
    some ((a.toNat - 48) * 10 + (b.toNat - 48))
  else none

/-- Two-digit minute alternative `[0-5]\d` of `%M`. -/
def minute2 (a b : Char) : Option Nat :=
  if '0' ≤ a ∧ a ≤ '5' ∧ b.isDigit then
    some ((a.toNat - 48) * 10 + (b.toNat - 48))
  else none

def strptime_HM (s : String) : Option (Nat × Nat) :=
  match s.data with
  | [h, ':', m] => do
      let hv ← digitVal h
      let mv ← digitVal m
      pure (hv, mv)
  | [h, ':', m1, m2] => do
      let hv ← digitVal h
      let mv ← minute2 m1 m2
      pure (hv, mv)
  | [h1, h2, ':', m] => do
      let hv ← hour2 h1 h2
      let mv ← digitVal m
      pure (hv, mv)
  | [h1, h2, ':', m1, m2] => do
      let hv ← hour2 h1 h2
      let mv ← minute2 m1 m2
      pure (hv, mv)
  | _ => none

/-! ### Onboarding state machine (src/main.py lines 26-31, 61-114) -/

inductive UserState
  | waiting_office_time
  | waiting_home_time
  | waiting_home_location
  | waiting_office_location
  | setup_complete
deriving DecidableEq

/-- Embeds `handle_office_time` (src/main.py lines 72-89): on a parsable time
it stores `office_start_time` and moves the state to `waiting_home_time`; on
`ValueError` it only replies, leaving state and data untouched. -/
def handle_office_time (st : UserState) (d : UserData) (text : String) :
    UserState × UserData :=
  match strptime_HM text with
  | some t =>
      (.waiting_home_time,
       ⟨some t, d.home_start_time, d.home_lat, d.home_lon, d.office_lat, d.office_lon⟩)
  | none => (st, d)

/-- Embeds `handle_home_time` (src/main.py lines 91-114). -/
def handle_home_time (st : UserState) (d : UserData) (text : String) :
    UserState × UserData :=
  match strptime_HM text with
  | some t =>
      (.waiting_home_location,
       ⟨d.office_start_time, some t, d.home_lat, d.home_lon, d.office_lat, d.office_lon⟩)
  | none => (st, d)

/-- Embeds the text dispatch of `message_handler` (src/main.py lines 61-70)
for one chat: other states only produce a reply. -/
def message_handler (st : UserState) (d : UserData) (text : String) :
    UserState × UserData :=
  match st with
  | .waiting_office_time => handle_office_time st d text
  | .waiting_home_time => handle_home_time st d text
  | _ => (st, d)

/-! ### Python datetimes (naive vs. pytz-aware)

`wall` is the displayed wall-clock reading in minutes; `tz` is the UTC offset
in minutes for an aware datetime and `none` for a naive one.  Python 3 orders
two naive datetimes by wall reading, two aware datetimes by UTC instant
(wall minus offset), and raises `TypeError` on a mixed comparison. -/

structure PyDateTime where
  wall : Int
  tz : Option Int
deriving DecidableEq

/-- Offset of `pytz.timezone("Asia/Kolkata")`-localized datetimes
(src/main.py line 44): UTC+5:30. -/
def IST_OFFSET_MINS : Int := 330

def PyDateTime.addMins (a : PyDateTime) (m : Int) : PyDateTime :=
  ⟨a.wall + m, a.tz⟩

/-- Python's `<` on datetimes. -/
def pyLt (a b : PyDateTime) : Except Unit Bool :=
  match a.tz, b.tz with
  | none, none => .ok (decide (a.wall < b.wall))
  | some oa, some ob => .ok (decide (a.wall - oa < b.wall - ob))
  | _, _ => .error ()

/-- Python's `<=` on datetimes. -/
def pyLe (a b : PyDateTime) : Except Unit Bool :=
  match a.tz, b.tz with
  | none, none => .ok (decide (a.wall ≤ b.wall))
  | some oa, some ob => .ok (decide (a.wall - oa ≤ b.wall - ob))
  | _, _ => .error ()

/-- `IST.localize(datetime.combine(day, t))` (src/main.py line 178). -/
def istCombine (day t : Int) : PyDateTime :=
  ⟨day * 1440 + t, some IST_OFFSET_MINS⟩

/-- `datetime.combine(day, t)` without localization
(src/main.py lines 216-217, 224-225): a naive datetime. -/
def naiveCombine (day t : Int) : PyDateTime :=
  ⟨day * 1440 + t, none⟩

/-! ### Window calculator (src/main.py lines 176-188)

`next_check_time` is a closure inside `schedule_tracking`; `today` is the IST
calendar date (line 172) and `now` the captured `datetime.now()` value (line
171), which in the source is always naive.  `base_time` is the stored
departure time-of-day in minutes. -/

def next_check_time (today base_time before_mins after_mins : Int)
    (now : PyDateTime) : Except Unit (PyDateTime × PyDateTime) :=
  let base_datetime := istCombine today base_time
  let start_check := base_datetime.addMins (-before_mins)
  let end_check := base_datetime.addMins after_mins
  match pyLt end_check now with
  | .error e => .error e
  | .ok true => .ok (start_check.addMins 1440, end_check.addMins 1440)
  | .ok false => .ok (start_check, end_check)

/-! ### Per-mode windows and the next-day reschedule
(src/main.py lines 204-228) -/

inductive Mode
  | office
  | home
deriving DecidableEq

/-- The mode-specific lead offset: `office` subtracts 30 minutes
(line 216), `home` subtracts 60 (line 224); both add 30 after the base. -/
def before_mins_of : Mode → Int
  | .office => 30
  | .home => 60

/-- Wall-clock minutes of the (start, end) pair computed by
`schedule_tracking_for_mode` for a given tomorrow-date and departure time. -/
def schedule_tracking_for_mode_wall (tomorrow base_time : Int) (m : Mode) :
    Int × Int :=
  (tomorrow * 1440 + base_time - before_mins_of m,
   tomorrow * 1440 + base_time + 30)

/-- The naive datetimes stored by `schedule_tracking_for_mode`
(src/main.py lines 216-219, 224-227): `datetime.combine` without any
localization. -/
def schedule_tracking_for_mode_window (tomorrow base_time : Int) (m : Mode) :
    PyDateTime × PyDateTime :=
  (⟨(schedule_tracking_for_mode_wall tomorrow base_time m).1, none⟩,
   ⟨(schedule_tracking_for_mode_wall tomorrow base_time m).2, none⟩)

/-- One mode's entry in `user_next_checks[chat_id]` (src/main.py line 23):
the pair ("office", "office_end") or ("home", "home_end"), in wall minutes
(these stored values are naive datetimes once written by the reschedule). -/
structure ModeWindow where
  wstart : Int
  wend : Int
deriving DecidableEq

/-- Embeds `schedule_tracking_for_mode` (src/main.py lines 204-228) acting on
one mode's window: `data` is `user_data.get(chat_id)` reduced to the relevant
stored departure time (`none` returns early leaving the window untouched);
`tomorrow = datetime.now().date() + timedelta(days=1)` (line 211). -/
def schedule_tracking_for_mode (data : Option Int) (now_date : Int) (m : Mode)
    (w : ModeWindow) : ModeWindow :=
  match data with
  | none => w
  | some base_time =>
    ⟨(schedule_tracking_for_mode_wall (now_date + 1) base_time m).1,
     (schedule_tracking_for_mode_wall (now_date + 1) base_time m).2⟩

/-! ### Scheduler loop step (src/main.py lines 230-278) -/

/-- `datetime.date()` of a wall-minute value: floor division by 1440. -/
def pyDate (now : Int) : Int := Int.fdiv now 1440

/-- One tick of `async_scheduler` for one (user, mode) pair
(src/main.py lines 251-261 for office, 263-273 for home): if
`checks[mode] <= now <= checks[mode_end]` the traffic check fires and
`checks[mode] = now + timedelta(minutes=2)` (the inner `now >= checks[mode]`
test is kept from the source); else if `now > checks[mode_end]` the mode is
rescheduled for tomorrow.  Returns the new window and whether a check
fired. -/
def scheduler_tick_mode (base_time : Int) (m : Mode) (now : Int)
    (w : ModeWindow) : ModeWindow × Bool :=
  if w.wstart ≤ now ∧ now ≤ w.wend then
    if w.wstart ≤ now then (⟨now + 2, w.wend⟩, true)
    else (w, false)
  else if w.wend < now then
    (schedule_tracking_for_mode (some base_time) (pyDate now) m w, false)
  else (w, false)

/-- Runs `scheduler_tick_mode` over a list of tick times, returning for each
fired check the pair (fire time, windowEnd of the window it fired in). -/
def run_scheduler (base_time : Int) (m : Mode) :
    List Int → ModeWindow → List (Int × Int)
  | [], _ => []
  | now :: rest, w =>
    let r := scheduler_tick_mode base_time m now w
    if r.2 then (now, w.wend) :: run_scheduler base_time m rest r.1
    else run_scheduler base_time m rest r.1

/-- Throttle spacing between two recorded fires: the earlier one precedes the
later one by at least the 2-minute throttle interval. -/
def fireGap (a b : Int × Int) : Prop := a.1 + 2 ≤ b.1

/-- Every recorded fire happened no later than the windowEnd of the window it
fired in. -/
def firesWithinEnd (l : List (Int × Int)) : Prop := ∀ p ∈ l, p.1 ≤ p.2

/-! ## Theorems -/

/-- Claim C4: for every integer delay and thresholds with
minorThreshold < urgentThreshold, the classifier yields Urgent exactly when
delay ≥ urgentThreshold, Minor exactly when minorThreshold ≤ delay <
urgentThreshold, Clear exactly when delay < minorThreshold; both boundary
inputs land on the documented side, and the travel-time value never affects
the tier of the composed message. -/
theorem classify_tier_spec (d u m : Int) (h : m < u) :
    (classify d u m = .urgent ↔ u ≤ d) ∧
    (classify d u m = .minor ↔ m ≤ d ∧ d < u) ∧
    (classify d u m = .clear ↔ d < m) ∧
    classify u u m = .urgent ∧ classify m u m = .minor ∧
    (∀ t₁ t₂ : Int, (compose_traffic_message t₁ d u m).alertTier
        = (compose_traffic_message t₂ d u m).alertTier) := by
  refine ⟨?_, ?_, ?_, ?_, ?_, fun t₁ t₂ => rfl⟩ <;>
    unfold classify <;> split_ifs <;> simp_all <;> omega

theorem classify_tier_spec_witness :
    (classify 3 5 2 = .minor ↔ 2 ≤ (3 : Int) ∧ (3 : Int) < 5) ∧
    classify 5 5 2 = .urgent :=
  ⟨(classify_tier_spec 3 5 2 (by decide)).2.1,
   (classify_tier_spec 5 5 2 (by decide)).2.2.2.1⟩

/-- Claim C10: the tier is computed from whole minutes obtained by floor
division of the delay seconds by 60 (a missing `trafficDelayInSeconds` is
treated as 0), so any delay below 60·minorThreshold seconds is Clear and
Urgent demands at least 60·urgentThreshold seconds. -/
theorem delay_floor_division_granularity (ds : Nat) (u m : Int)
    (_hm : 0 < m) (hmu : m < u) :
    (∀ s : RouteSummary, s.trafficDelayInSeconds = none → delay_mins_of s = 0) ∧
    ((ds : Int) < 60 * m → classify ((ds / 60 : Nat) : Int) u m = .clear) ∧
    (classify ((ds / 60 : Nat) : Int) u m = .urgent ↔ 60 * u ≤ (ds : Int)) := by
  refine ⟨fun s hs => by simp [delay_mins_of, hs], ?_, ?_⟩
  · intro hlt
    unfold classify
    split_ifs with h1 h2
    · exfalso; omega
    · exfalso; omega
    · rfl
  · unfold classify
    split_ifs with h1 h2 <;> simp_all <;> omega

theorem delay_floor_division_granularity_witness :
    delay_mins_of ⟨900, none⟩ = 0 ∧
    classify ((119 / 60 : Nat) : Int) 5 2 = .clear :=
  ⟨(delay_floor_division_granularity 119 5 2 (by decide) (by decide)).1
      ⟨900, none⟩ rfl,
   (delay_floor_division_granularity 119 5 2 (by decide) (by decide)).2.1
      (by decide)⟩

/-- Claim C7: with profile data present, every provider-error outcome of
`send_tomtom_update` — a raised exception, a non-200 status, or an empty or
missing route list — enqueues exactly one message for that user describing
the failure, and the call never propagates the error (the embedding is a
total function into the queued-message list). -/
theorem send_tomtom_update_error_enqueues_one (chat_id : Int) (ud : UserData) :
    (∀ e : String,
        send_tomtom_update chat_id (some ud) (.error e)
          = [(chat_id, .exceptionText e)]) ∧
    (∀ r : TomTomResponse, r.status_code ≠ 200 →
        send_tomtom_update chat_id (some ud) (.ok r)
          = [(chat_id, .apiFailure r.status_code)]) ∧
    (∀ r : TomTomResponse, r.status_code = 200 → r.routes = [] →
        send_tomtom_update chat_id (some ud) (.ok r)
          = [(chat_id, .noRoute)]) := by
  refine ⟨fun e => rfl, fun r hr => ?_, fun r h200 hroutes => ?_⟩
  · simp [send_tomtom_update, hr]
  · obtain ⟨sc, routes⟩ := r
    simp only at h200 hroutes
    subst h200; subst hroutes
    rfl

theorem send_tomtom_update_error_enqueues_one_witness :
    send_tomtom_update 1 (some ⟨none, none, none, none, none, none⟩)
        (.error "timeout") = [(1, .exceptionText "timeout")] ∧
    send_tomtom_update 1 (some ⟨none, none, none, none, none, none⟩)
        (.ok ⟨500, []⟩) = [(1, .apiFailure 500)] ∧
    send_tomtom_update 1 (some ⟨none, none, none, none, none, none⟩)
        (.ok ⟨200, []⟩) = [(1, .noRoute)] :=
  ⟨(send_tomtom_update_error_enqueues_one 1
      ⟨none, none, none, none, none, none⟩).1 "timeout",
   (send_tomtom_update_error_enqueues_one 1
      ⟨none, none, none, none, none, none⟩).2.1 ⟨500, []⟩ (by decide),
   (send_tomtom_update_error_enqueues_one 1
      ⟨none, none, none, none, none, none⟩).2.2 ⟨200, []⟩ rfl rfl⟩

/-- Claim C8: in the two time-awaiting onboarding states, a text that does
not parse as HH:MM leaves the state and every stored profile field unchanged,
while a parsable time stores exactly that value and advances the state by one
step. -/
theorem onboarding_time_input_atomic (d : UserData) (text : String) :
    (strptime_HM text = none →
        message_handler .waiting_office_time d text = (.waiting_office_time, d) ∧
        message_handler .waiting_home_time d text = (.waiting_home_time, d)) ∧
    (∀ t : Nat × Nat, strptime_HM text = some t →
        message_handler .waiting_office_time d text
          = (.waiting_home_time,
             ⟨some t, d.home_start_time, d.home_lat, d.home_lon,
              d.office_lat, d.office_lon⟩) ∧
        message_handler .waiting_home_time d text
          = (.waiting_home_location,
             ⟨d.office_start_time, some t, d.home_lat, d.home_lon,
              d.office_lat, d.office_lon⟩)) := by
  constructor
  · intro h
    constructor <;>
      simp [message_handler, handle_office_time, handle_home_time, h]
  · intro t h
    constructor <;>
      simp [message_handler, handle_office_time, handle_home_time, h]

theorem onboarding_time_input_atomic_witness :
    message_handler .waiting_office_time ⟨none, none, none, none, none, none⟩
        "25:00" = (.waiting_office_time, ⟨none, none, none, none, none, none⟩) ∧
    message_handler .waiting_office_time ⟨none, none, none, none, none, none⟩
        "09:30" = (.waiting_home_time,
          ⟨some (9, 30), none, none, none, none, none⟩) :=
  ⟨((onboarding_time_input_atomic ⟨none, none, none, none, none, none⟩
      "25:00").1 rfl).1,
   ((onboarding_time_input_atomic ⟨none, none, none, none, none, none⟩
      "09:30").2 (9, 30) rfl).1⟩

/-- Claim C6: the Expired-state reschedule is idempotent and its result is
independent of the previously stored window — it is a pure function of
tomorrow's date, the stored departure time and the fixed mode offsets. -/
theorem schedule_tracking_for_mode_idempotent (t now_date : Int) (m : Mode)
    (w w' : ModeWindow) :
    schedule_tracking_for_mode (some t) now_date m
        (schedule_tracking_for_mode (some t) now_date m w)
      = schedule_tracking_for_mode (some t) now_date m w ∧
    schedule_tracking_for_mode (some t) now_date m w
      = schedule_tracking_for_mode (some t) now_date m w' :=
  ⟨rfl, rfl⟩

/-- Claim C1 (amended): the window stored by the next-day reschedule always
satisfies windowStart ≤ windowEnd, but after a throttle advance that fires at
time `now` the invariant holds iff now + 2 minutes ≤ windowEnd — a check
firing during the final two minutes of a window leaves windowStart >
windowEnd (the next tick then treats the window as expired).  The initial
creation path stores nothing at all because `next_check_time` raises (see the
C2/C9 theorems). -/
theorem reschedule_and_throttle_window_invariant
    (t now_date base_time now : Int) (m : Mode) (w : ModeWindow) :
    (schedule_tracking_for_mode (some t) now_date m w).wstart
        ≤ (schedule_tracking_for_mode (some t) now_date m w).wend ∧
    ((scheduler_tick_mode base_time m now w).2 = true →
      ((scheduler_tick_mode base_time m now w).1.wstart
          ≤ (scheduler_tick_mode base_time m now w).1.wend
        ↔ now + 2 ≤ w.wend)) := by
  constructor
  · cases m <;>
      (simp [schedule_tracking_for_mode, schedule_tracking_for_mode_wall,
        before_mins_of]; omega)
  · intro hf
    unfold scheduler_tick_mode at hf ⊢
    split_ifs at hf ⊢
    all_goals simp_all

theorem reschedule_and_throttle_window_invariant_witness :
    ((scheduler_tick_mode 540 Mode.office 540 ⟨510, 570⟩).1.wstart
        ≤ (scheduler_tick_mode 540 Mode.office 540 ⟨510, 570⟩).1.wend)
      ↔ (540 : Int) + 2 ≤ 570 :=
  (reschedule_and_throttle_window_invariant 0 0 540 540 Mode.office
      ⟨510, 570⟩).2 rfl

/-- Claim C1 counterexample: a check that fires exactly at windowEnd
(09:30 window end, base time 09:00) leaves windowStart = windowEnd + 2 >
windowEnd, so the invariant does not hold after every throttle advance. -/
theorem throttle_can_break_window_invariant :
    (scheduler_tick_mode 540 Mode.office 570 ⟨510, 570⟩).2 = true ∧
    ¬ (scheduler_tick_mode 540 Mode.office 570 ⟨510, 570⟩).1.wstart
        ≤ (scheduler_tick_mode 540 Mode.office 570 ⟨510, 570⟩).1.wend := by
  decide

/-- Claim C2 (code bug): as called by `schedule_tracking`, where `now =
datetime.now()` is naive (src/main.py line 171) while `end_check` is
IST-aware, the comparison `end_check < now` raises `TypeError` for every
input, so `next_check_time` never returns a window at all. -/
theorem next_check_time_raises_on_naive_now
    (today base_time before_mins after_mins now_wall : Int) :
    next_check_time today base_time before_mins after_mins ⟨now_wall, none⟩
      = .error () := rfl

/-- Claim C3 (code bug): at the scenario-2 input (home departure 18:00,
offsets (60, 30), now = naive 2024-01-01T19:00, day 0 = 2024-01-01) the call
raises `TypeError` instead of returning the rolled window; with an IST-aware
`now` of the same instant — the evident intent — the arithmetic yields
exactly the 24-hour-shifted window [17:00, 18:30] on day 1 (2024-01-02). -/
theorem next_check_time_scenario2_rollover :
    next_check_time 0 1080 60 30 ⟨1140, none⟩ = Except.error () ∧
    next_check_time 0 1080 60 30 ⟨1140, some IST_OFFSET_MINS⟩ =
      Except.ok (⟨1 * 1440 + 1020, some IST_OFFSET_MINS⟩,
                 ⟨1 * 1440 + 1110, some IST_OFFSET_MINS⟩) :=
  ⟨rfl, rfl⟩

/-- Claim C9 (code bug): the two window-construction paths do not share a
timezone reference.  Whenever `next_check_time` does return a window, both
endpoints are IST-aware (pytz offset +330 minutes), while the next-day
reschedule path stores naive datetimes; comparing an initial-path window
against the scheduler loop's naive `datetime.now()` raises `TypeError`. -/
theorem window_paths_timezone_mismatch
    (today base_time tomorrow base2 now_wall2 : Int) (m : Mode)
    (now s e : PyDateTime)
    (h : next_check_time today base_time 30 30 now = .ok (s, e)) :
    s.tz = some IST_OFFSET_MINS ∧ e.tz = some IST_OFFSET_MINS ∧
    (schedule_tracking_for_mode_window tomorrow base2 m).1.tz = none ∧
    (schedule_tracking_for_mode_window tomorrow base2 m).2.tz = none ∧
    pyLe s ⟨now_wall2, none⟩ = .error () := by
  simp only [next_check_time] at h
  split at h
  · exact absurd h (by simp)
  · rw [Except.ok.injEq, Prod.mk.injEq] at h
    obtain ⟨hs, he⟩ := h
    subst hs; subst he
    exact ⟨rfl, rfl, rfl, rfl, rfl⟩
  · rw [Except.ok.injEq, Prod.mk.injEq] at h
    obtain ⟨hs, he⟩ := h
    subst hs; subst he
    exact ⟨rfl, rfl, rfl, rfl, rfl⟩

theorem window_paths_timezone_mismatch_witness :
    (⟨510, some IST_OFFSET_MINS⟩ : PyDateTime).tz = some IST_OFFSET_MINS ∧
    (schedule_tracking_for_mode_window 1 540 Mode.office).1.tz = none ∧
    pyLe ⟨510, some IST_OFFSET_MINS⟩ ⟨0, none⟩ = .error () := by
  have h := window_paths_timezone_mismatch 0 540 1 540 0 Mode.office
    ⟨400, some IST_OFFSET_MINS⟩ ⟨510, some IST_OFFSET_MINS⟩
    ⟨570, some IST_OFFSET_MINS⟩ rfl
  exact ⟨h.1, h.2.2.1, h.2.2.2.2⟩

/-! ### Throttle law of the scheduler step relation (claim C5)

The proof strengthens the statement with a lower bound on every recorded
fire time: all fires of a run from window `w` happen no earlier than
`min w.wstart (w.wend + 2)`.  A throttle advance moves `wstart` to
`now + 2`, and a reschedule moves the whole window at least a day forward
of the expired `wend`, so consecutive fires are always ≥ 2 minutes apart —
also across a window expiry. -/

lemma pyDate_bounds (now : Int) :
    pyDate now * 1440 ≤ now ∧ now < pyDate now * 1440 + 1440 := by
  unfold pyDate
  rw [Int.fdiv_eq_ediv now (by norm_num)]
  omega

lemma before_mins_of_range (m : Mode) :
    0 ≤ before_mins_of m ∧ before_mins_of m ≤ 60 := by
  cases m <;> exact ⟨by decide, by decide⟩

lemma run_scheduler_fire_bounds (base_time : Int) (m : Mode)
    (hb : 0 ≤ base_time) :
    ∀ (ticks : List Int) (w : ModeWindow),
      (∃ T : Int, w.wend = T * 1440 + base_time + 30) →
      (∀ p ∈ run_scheduler base_time m ticks w,
          min w.wstart (w.wend + 2) ≤ p.1 ∧ p.1 ≤ p.2) ∧
      List.Chain' fireGap (run_scheduler base_time m ticks w) := by
  intro ticks
  induction ticks with
  | nil =>
    intro w _
    constructor
    · intro p hp
      simp [run_scheduler] at hp
    · simp [run_scheduler]
  | cons now rest ih =>
    intro w hw
    obtain ⟨T, hT⟩ := hw
    by_cases h1 : w.wstart ≤ now ∧ now ≤ w.wend
    · have hrun : run_scheduler base_time m (now :: rest) w
          = (now, w.wend) :: run_scheduler base_time m rest ⟨now + 2, w.wend⟩ := by
        simp [run_scheduler, scheduler_tick_mode, h1.1, h1.2]
      have ih' := ih ⟨now + 2, w.wend⟩ ⟨T, hT⟩
      rw [hrun]
      constructor
      · intro p hp
        rcases List.mem_cons.mp hp with hp | hp
        · subst hp
          exact ⟨le_trans (min_le_left _ _) h1.1, h1.2⟩
        · have hlow : min (now + 2) (w.wend + 2) ≤ p.1 := (ih'.1 p hp).1
          refine ⟨?_, (ih'.1 p hp).2⟩
          have := h1.1
          omega
      · rw [List.chain'_cons']
        refine ⟨?_, ih'.2⟩
        intro y hy
        have hlow : min (now + 2) (w.wend + 2) ≤ y.1 :=
          (ih'.1 y (List.mem_of_mem_head? hy)).1
        show now + 2 ≤ y.1
        have := h1.2
        omega
    · by_cases h2 : w.wend < now
      · have hrun : run_scheduler base_time m (now :: rest) w
            = run_scheduler base_time m rest
                ⟨(pyDate now + 1) * 1440 + base_time - before_mins_of m,
                 (pyDate now + 1) * 1440 + base_time + 30⟩ := by
          simp [run_scheduler, scheduler_tick_mode, h1, h2,
            schedule_tracking_for_mode, schedule_tracking_for_mode_wall]
        have ih' := ih
          ⟨(pyDate now + 1) * 1440 + base_time - before_mins_of m,
           (pyDate now + 1) * 1440 + base_time + 30⟩ ⟨pyDate now + 1, rfl⟩
        rw [hrun]
        refine ⟨fun p hp => ?_, ih'.2⟩
        have hlow : min ((pyDate now + 1) * 1440 + base_time - before_mins_of m)
            ((pyDate now + 1) * 1440 + base_time + 30 + 2) ≤ p.1 := (ih'.1 p hp).1
        refine ⟨?_, (ih'.1 p hp).2⟩
        have hd := pyDate_bounds now
        have hbm := before_mins_of_range m
        omega
      · have hrun : run_scheduler base_time m (now :: rest) w
            = run_scheduler base_time m rest w := by
          simp [run_scheduler, scheduler_tick_mode, h1, h2]
        rw [hrun]
        exact ih w ⟨T, hT⟩

/-- Claim C5: in every run of the scheduler step relation started from a
window of the reschedule shape, no check fires strictly after the windowEnd
it fired in, and consecutive fires for the same (user, mode) pair are at
least the 2-minute throttle interval apart — including across a window
expiry and next-day reschedule. -/
theorem scheduler_throttle_law (base_time : Int) (m : Mode)
    (ticks : List Int) (w : ModeWindow) (hb : 0 ≤ base_time)
    (hw : ∃ T : Int, w.wend = T * 1440 + base_time + 30) :
    firesWithinEnd (run_scheduler base_time m ticks w) ∧
    List.Chain' fireGap (run_scheduler base_time m ticks w) := by
  have h := run_scheduler_fire_bounds base_time m hb ticks w hw
  exact ⟨fun p hp => (h.1 p hp).2, h.2⟩

theorem scheduler_throttle_law_witness :
    firesWithinEnd (run_scheduler 540 Mode.office [520, 521, 523, 600]
      ⟨510, 570⟩) ∧
    List.Chain' fireGap (run_scheduler 540 Mode.office [520, 521, 523, 600]
      ⟨510, 570⟩) :=
  scheduler_throttle_law 540 Mode.office [520, 521, 523, 600] ⟨510, 570⟩
    (by decide) ⟨0, by decide⟩

end TrafficAlert
